import Mathlib

/-
Verification of the SpotifySpotlight context-to-color engine
(src/spotify_token_server.py), shallowly embedded in Lean 4.

Numeric conventions: Python floats are modelled as exact rationals (ℚ),
Python ints as ℤ.  Python's int() conversion truncates toward zero and is
modelled by pyInt.  The Spotify client (spotipy) is modelled as an explicit
Playback value: a raised exception from a client call is an Except.error,
a successful call an Except.ok.
-/

deriving instance DecidableEq for Except

namespace SpotifyIoT

/-- Python built-in int() applied to a float: truncation toward zero. -/
def pyInt (q : ℚ) : ℤ := if q < 0 then -⌊-q⌋ else ⌊q⌋

/-- clamp from the source (defaults lo=0, hi=255): max(lo, min(hi, int(x))). -/
def clamp (x : ℚ) : ℤ := max 0 (min 255 (pyInt x))

/-- clamp01 from the source: max(0.0, min(1.0, float(x))). -/
def clamp01 (x : ℚ) : ℚ := max 0 (min 1 x)

/-- colorsys.hsv_to_rgb from the Python standard library, which hue_to_rgb
in the source delegates to. -/
def hsv_to_rgb (h s v : ℚ) : ℚ × ℚ × ℚ :=
  if s = 0 then (v, v, v)
  else
    let i : ℤ := pyInt (h * 6)
    let f : ℚ := h * 6 - (i : ℚ)
    let p : ℚ := v * (1 - s)
    let q : ℚ := v * (1 - s * f)
    let t : ℚ := v * (1 - s * (1 - f))
    let im : ℤ := i % 6
    if im = 0 then (v, t, p)
    else if im = 1 then (q, v, p)
    else if im = 2 then (p, v, t)
    else if im = 3 then (t, q, v)
    else if im = 4 then (p, q, v)
    else (q, t, v)

/-- hue_to_rgb from the source: HSV→RGB with every channel scaled to 0..255
and truncated by int(). -/
def hue_to_rgb (h s v : ℚ) : ℤ × ℤ × ℤ :=
  let c := hsv_to_rgb (clamp01 h) (clamp01 s) (clamp01 v)
  (pyInt (c.1 * 255), pyInt (c.2.1 * 255), pyInt (c.2.2 * 255))

/-- The denominator used by mix_rgb: sum(w for _, w in colors) or 1.0.
Python's or-fallback replaces an exactly-zero sum by 1.0. -/
def mixTotal (colors : List ((ℤ × ℤ × ℤ) × ℚ)) : ℚ :=
  let s := (colors.map (fun cw => cw.2)).sum
  if s = 0 then 1 else s

/-- mix_rgb from the source: weighted per-channel average, then clamp. -/
def mix_rgb (colors : List ((ℤ × ℤ × ℤ) × ℚ)) : ℤ × ℤ × ℤ :=
  let total := mixTotal colors
  ( clamp ((colors.map (fun cw => (cw.1.1 : ℚ) * cw.2)).sum / total)
  , clamp ((colors.map (fun cw => (cw.1.2.1 : ℚ) * cw.2)).sum / total)
  , clamp ((colors.map (fun cw => (cw.1.2.2 : ℚ) * cw.2)).sum / total) )

/-- The eight fixed color buckets. -/
inductive Bucket
  | RED | ORANGE | YELLOW | GREEN | CYAN | BLUE | PURPLE | PINK
  deriving DecidableEq, Repr

/-- BUCKETS from the source: bucket name paired with its base hue. -/
def BUCKETS : List (Bucket × ℚ) :=
  [ (.RED, 0), (.ORANGE, 2/25), (.YELLOW, 7/50), (.GREEN, 33/100)
  , (.CYAN, 1/2), (.BLUE, 31/50), (.PURPLE, 39/50), (.PINK, 9/10) ]

/-- GENRE_KEYWORDS from the source. -/
def GENRE_KEYWORDS : Bucket → List String
  | .RED => ["rock", "metal", "punk", "emo"]
  | .ORANGE => ["latin", "reggaeton", "afrobeats"]
  | .YELLOW => ["pop", "k-pop", "j-pop"]
  | .GREEN => ["indie", "folk", "country", "bluegrass"]
  | .CYAN => ["edm", "house", "trance"]
  | .BLUE => ["ambient", "chill", "lofi"]
  | .PURPLE => ["hip hop", "rap", "r&b"]
  | .PINK => ["jazz", "classical", "instrumental"]

/-- Python's substring test (needle in hay) on character lists. -/
def pyIn (needle : List Char) : List Char → Bool
  | [] => needle.isEmpty
  | c :: rest => needle.isPrefixOf (c :: rest) || pyIn needle rest

/-- Python str.lower() on one character (the ASCII case mapping, which is
all that keyword matching exercises). -/
def pyToLower (c : Char) : Char :=
  if 65 ≤ c.toNat ∧ c.toNat ≤ 90 then Char.ofNat (c.toNat + 32) else c

/-- The search text of score_buckets: the genre strings joined by a single
space and lowercased, as a character list. -/
def joinedText (genres : List String) : List Char :=
  ((" ".intercalate genres).data).map pyToLower

/-- A weight distribution over the eight buckets (the weights dict of
score_buckets, whose keys are exactly the bucket names). -/
@[ext]
structure Weights where
  red : ℚ
  orange : ℚ
  yellow : ℚ
  green : ℚ
  cyan : ℚ
  blue : ℚ
  purple : ℚ
  pink : ℚ
  deriving DecidableEq, Repr

/-- Lookup a bucket's weight (weights.get(name, 0); every name is a key). -/
def Weights.get (w : Weights) : Bucket → ℚ
  | .RED => w.red
  | .ORANGE => w.orange
  | .YELLOW => w.yellow
  | .GREEN => w.green
  | .CYAN => w.cyan
  | .BLUE => w.blue
  | .PURPLE => w.purple
  | .PINK => w.pink

/-- Sum of all eight weights (sum(weights.values())). -/
def wsum (w : Weights) : ℚ :=
  w.red + w.orange + w.yellow + w.green + w.cyan + w.blue + w.purple + w.pink

/-- The keyword score of one bucket: +1.0 for each keyword of the bucket
occurring as a substring of the search text. -/
def countKw (text : List Char) (b : Bucket) : ℚ :=
  (((GENRE_KEYWORDS b).filter (fun kw => pyIn kw.data text)).length : ℚ)

/-- The keyword-accumulation loop of score_buckets, as a function of the
joined search text. -/
def preWeightsOfText (text : List Char) : Weights :=
  { red := countKw text .RED, orange := countKw text .ORANGE
  , yellow := countKw text .YELLOW, green := countKw text .GREEN
  , cyan := countKw text .CYAN, blue := countKw text .BLUE
  , purple := countKw text .PURPLE, pink := countKw text .PINK }

/-- Keyword weights of a genre list, before fallback and normalization. -/
def preWeights (genres : List String) : Weights :=
  preWeightsOfText (joinedText genres)

/-- The fallback step of score_buckets: if no keyword matched, set
CYAN=1.0, GREEN=0.7, BLUE=0.5. -/
def applyFallback (w : Weights) : Weights :=
  if wsum w = 0 then { w with cyan := 1, green := 7/10, blue := 1/2 } else w

/-- The normalization step of score_buckets: divide every weight by
sum(weights.values()) or 1.0. -/
def normalize (w : Weights) : Weights :=
  let total := if wsum w = 0 then 1 else wsum w
  { red := w.red / total, orange := w.orange / total
  , yellow := w.yellow / total, green := w.green / total
  , cyan := w.cyan / total, blue := w.blue / total
  , purple := w.purple / total, pink := w.pink / total }

/-- score_buckets from the source: keyword scores on the joined lowercased
text, fallback when nothing matched, then normalization. -/
def score_buckets (genres : List String) : Weights :=
  normalize (applyFallback (preWeights genres))

/-- Python's (popularity or 50): 50 is substituted when popularity is None
or when it is 0 (both are falsy). -/
def pyOrFifty : Option ℤ → ℤ
  | none => 50
  | some p => if p = 0 then 50 else p

/-- The pop value of bucket_base_rgb: clamp01((popularity or 50) / 100). -/
def popNorm (popularity : Option ℤ) : ℚ :=
  clamp01 ((pyOrFifty popularity : ℚ) / 100)

/-- The saturation of bucket_base_rgb. -/
def synthSat (popularity : Option ℤ) (explicit : Bool) : ℚ :=
  clamp01 (3/5 + 3/10 * popNorm popularity + if explicit then 1/10 else 0)

/-- The brightness of bucket_base_rgb. -/
def synthBright (popularity : Option ℤ) : ℚ :=
  clamp01 (1/2 + 2/5 * popNorm popularity)

/-- bucket_base_rgb from the source.  The temp_c parameter is accepted and
never used, exactly as in the source. -/
def bucket_base_rgb (weights : Weights) (temp_c : Option ℚ)
    (popularity : Option ℤ) (explicit : Bool) : ℤ × ℤ × ℤ :=
  let saturation := synthSat popularity explicit
  let brightness := synthBright popularity
  let colors := BUCKETS.filterMap (fun nb =>
    if 0 < weights.get nb.1
    then some (hue_to_rgb nb.2 saturation brightness, weights.get nb.1)
    else none)
  mix_rgb colors

/-- bpm_to_rgb from the source. -/
def bpm_to_rgb (tempo energy : ℚ) : ℤ × ℤ × ℤ :=
  let t := max 60 (min 180 tempo)
  let p := (t - 60) / 120
  (clamp (255 * p), clamp (255 * energy), clamp (255 * (1 - p)))

/-- A Python exception escaping a spotipy call or a list index. -/
inductive PyErr
  | providerError
  | indexError
  deriving DecidableEq, Repr

/-- An artist object of the current-playback item (only the fields the
source reads). -/
structure Artist where
  id : String
  name : String
  deriving DecidableEq, Repr

/-- The item of a current-playback response (only the fields the source
reads; popularity is none when the key is missing). -/
structure Item where
  id : String
  name : String
  artists : List Artist
  popularity : Option ℤ
  explicit : Bool
  deriving DecidableEq, Repr

/-- The spotipy client: sp.current_playback() and the genres list of
sp.artist(artist_id) (already with the .get("genres", []) default applied).
An Except.error models a raised exception (network/auth failure or a
non-success upstream status). -/
structure Playback where
  current : Except PyErr (Option Item)
  artistGenres : String → Except PyErr (List String)

/-- The _artist_genre_cache dict: insertion-ordered association list,
newest binding first. -/
def Cache := List (String × List String)

instance : DecidableEq Cache := by
  unfold Cache
  infer_instance

/-- The cache consultation of safe_get_current_genres (lines 183-187):
on hit return the cached list, on miss call sp.artist and store.  The
third component is ghost instrumentation counting how many provider
(sp.artist) calls the step performed; it does not alter the data flow. -/
def get_genres (pb : Playback) (cache : Cache) (aid : String) :
    Except PyErr (List String × Cache × Nat) :=
  match List.lookup aid cache with
  | some v => Except.ok (v, cache, 0)
  | none =>
    match pb.artistGenres aid with
    | Except.error e => Except.error e
    | Except.ok g => Except.ok (g, (aid, g) :: cache, 1)

/-- The cache state after one get_genres step (an escaping exception
leaves the cache unchanged, since the dict write never executes). -/
def cacheAfter (pb : Playback) (cache : Cache) (aid : String) : Cache :=
  match get_genres pb cache aid with
  | Except.error _ => cache
  | Except.ok (_, c, _) => c

/-- The cache state after a whole sequence of get_genres steps. -/
def runCalls (pb : Playback) (cache : Cache) : List String → Cache
  | [] => cache
  | a :: rest => runCalls pb (cacheAfter pb cache a) rest

/-- The tuple returned by safe_get_current_genres. -/
structure TrackInfo where
  track : String
  artist : String
  genres : List String
  popularity : ℤ
  explicit : Bool
  track_id : Option String
  deriving DecidableEq, Repr

/-- safe_get_current_genres from the source, with the module-level cache
passed and returned explicitly.  A raised spotipy exception propagates
(the function has no try/except); only a successful call reporting
nothing playing (falsy response or missing item) yields the defaults. -/
def safe_get_current_genres (pb : Playback) (cache : Cache) :
    Except PyErr (TrackInfo × Cache) :=
  match pb.current with
  | Except.error e => Except.error e
  | Except.ok none =>
    Except.ok (⟨"No Song", "Unknown", [], 50, false, none⟩, cache)
  | Except.ok (some item) =>
    match item.artists with
    | [] => Except.error PyErr.indexError
    | a :: _ =>
      match get_genres pb cache a.id with
      | Except.error e => Except.error e
      | Except.ok (genres, cache2, _) =>
        Except.ok
          (⟨item.name, a.name, genres, item.popularity.getD 50,
            item.explicit, some item.id⟩, cache2)

/-- The JSON payload of the /update_context route. -/
structure Response where
  song : String
  artist : String
  r : ℤ
  g : ℤ
  b : ℤ
  genres : List String
  popularity : ℤ
  explicit : Bool
  deriving DecidableEq, Repr

/-- The /update_context route handler from the source.  The mode query
parameter is parsed (as in the source) but never consulted; an exception
escaping safe_get_current_genres propagates (Flask would answer 500). -/
def update_context (pb : Playback) (cache : Cache) (temp : Option ℚ)
    (mode : String) : Except PyErr (Response × Cache) :=
  match safe_get_current_genres pb cache with
  | Except.error e => Except.error e
  | Except.ok (info, cache2) =>
    let weights := score_buckets info.genres
    let c := bucket_base_rgb weights temp (some info.popularity) info.explicit
    Except.ok
      (⟨info.track.take 15, info.artist.take 15, c.1, c.2.1, c.2.2,
        info.genres.take 3, info.popularity, info.explicit⟩, cache2)

/-- A color is reachable through the tempo path when some tempo/energy
input produces it. -/
def bpmAttainable (c : ℤ × ℤ × ℤ) : Prop :=
  ∃ t e : ℚ, bpm_to_rgb t e = c

/-- A well-formed RGB triple: each channel an integer in 0..255. -/
def inRGB (c : ℤ × ℤ × ℤ) : Prop :=
  0 ≤ c.1 ∧ c.1 ≤ 255 ∧ 0 ≤ c.2.1 ∧ c.2.1 ≤ 255 ∧ 0 ≤ c.2.2 ∧ c.2.2 ≤ 255

/-- A normalized distribution over the eight buckets: every weight in
[0,1] and total exactly 1. -/
def isDistribution (w : Weights) : Prop :=
  0 ≤ w.red ∧ w.red ≤ 1 ∧ 0 ≤ w.orange ∧ w.orange ≤ 1 ∧
  0 ≤ w.yellow ∧ w.yellow ≤ 1 ∧ 0 ≤ w.green ∧ w.green ≤ 1 ∧
  0 ≤ w.cyan ∧ w.cyan ≤ 1 ∧ 0 ≤ w.blue ∧ w.blue ≤ 1 ∧
  0 ≤ w.purple ∧ w.purple ≤ 1 ∧ 0 ≤ w.pink ∧ w.pink ≤ 1 ∧
  wsum w = 1

/-- All eight weights nonnegative. -/
def nonnegW (w : Weights) : Prop :=
  0 ≤ w.red ∧ 0 ≤ w.orange ∧ 0 ≤ w.yellow ∧ 0 ≤ w.green ∧
  0 ≤ w.cyan ∧ 0 ≤ w.blue ∧ 0 ≤ w.purple ∧ 0 ≤ w.pink

/-- The provider used by concrete scenarios: nothing playing, every
artist lookup succeeding with an empty genre list. -/
def pbNothing : Playback :=
  { current := Except.ok none, artistGenres := fun _ => Except.ok [] }

/-- A provider whose current-playback call raises (network/auth failure
or non-success upstream status). -/
def pbRaise : Playback :=
  { current := Except.error PyErr.providerError
  , artistGenres := fun _ => Except.ok [] }

/-- A provider with a playing rock track (scenario 1 of the spec). -/
def pbRock : Playback :=
  { current := Except.ok (some
      { id := "t1", name := "Song", artists := [{ id := "a1", name := "Artist" }]
      , popularity := some 80, explicit := false })
  , artistGenres := fun _ => Except.ok ["classic rock", "metal"] }

/-- A concrete artist id for the cache scenario. -/
def aid1 : String := "A1"

/-- A second concrete artist id for the cache scenario. -/
def aid2 : String := "A2"

/-- The TEMP mode string (the default of the route). -/
def modeTEMP : String := "TEMP"

/-- The BPM mode string. -/
def modeBPM : String := "BPM"

attribute [local semireducible] Rat.add Rat.mul Rat.inv Rat.sub

set_option maxRecDepth 40000

/-! Helper lemmas shared by several claims. -/

lemma clamp_nonneg (x : ℚ) : 0 ≤ clamp x := le_max_left 0 _

lemma clamp_le_255 (x : ℚ) : clamp x ≤ 255 :=
  max_le (by norm_num) (min_le_left _ _)

lemma clamp_eq_floor (x : ℚ) (h0 : 0 ≤ x) (h255 : x ≤ 255) : clamp x = ⌊x⌋ := by
  have hf0 : (0 : ℤ) ≤ ⌊x⌋ := Int.floor_nonneg.mpr h0
  have hf255 : ⌊x⌋ ≤ 255 := by
    have h := Int.floor_le_floor h255
    simpa using h
  rw [clamp, pyInt, if_neg (not_lt.mpr h0), min_eq_right hf255, max_eq_right hf0]

/-- bucket_base_rgb never reads its temperature argument. -/
lemma bucket_temp_irrel (w : Weights) (t t' : Option ℚ) (p : Option ℤ)
    (e : Bool) : bucket_base_rgb w t p e = bucket_base_rgb w t' p e := rfl

/-- In the tempo path the red and blue channels always add up to 254 or
255, because they are the truncations of 255*p and 255*(1-p). -/
lemma bpm_red_blue_sum (tempo energy : ℚ) :
    254 ≤ (bpm_to_rgb tempo energy).1 + (bpm_to_rgb tempo energy).2.2 ∧
    (bpm_to_rgb tempo energy).1 + (bpm_to_rgb tempo energy).2.2 ≤ 255 := by
  have h60 : (60 : ℚ) ≤ max 60 (min 180 tempo) := le_max_left _ _
  have h180 : max 60 (min 180 tempo) ≤ 180 := max_le (by norm_num) (min_le_left _ _)
  set p : ℚ := (max 60 (min 180 tempo) - 60) / 120 with hpdef
  have hp0 : 0 ≤ p := by
    rw [hpdef]
    apply div_nonneg _ (by norm_num)
    linarith
  have hp1 : p ≤ 1 := by
    rw [hpdef, div_le_one (by norm_num)]
    linarith
  have hr : (bpm_to_rgb tempo energy).1 = ⌊255 * p⌋ :=
    clamp_eq_floor _ (by nlinarith) (by nlinarith)
  have hb : (bpm_to_rgb tempo energy).2.2 = ⌊255 * (1 - p)⌋ :=
    clamp_eq_floor _ (by nlinarith) (by nlinarith)
  rw [hr, hb, show (255 : ℚ) * (1 - p) = 255 - 255 * p by ring]
  have hfx := Int.floor_le (255 * p)
  have hlx := Int.lt_floor_add_one (255 * p)
  have hfy := Int.floor_le (255 - 255 * p)
  have hly := Int.lt_floor_add_one (255 - 255 * p)
  constructor
  · have hq : (253 : ℚ) < ((⌊255 * p⌋ + ⌊255 - 255 * p⌋ : ℤ) : ℚ) := by
      push_cast
      linarith
    have hz : (253 : ℤ) < ⌊255 * p⌋ + ⌊255 - 255 * p⌋ := by exact_mod_cast hq
    omega
  · have hq : ((⌊255 * p⌋ + ⌊255 - 255 * p⌋ : ℤ) : ℚ) ≤ 255 := by
      push_cast
      linarith
    exact_mod_cast hq

/-- Every keyword count is nonnegative. -/
lemma pre_nonneg (genres : List String) : nonnegW (preWeights genres) :=
  ⟨Nat.cast_nonneg _, Nat.cast_nonneg _, Nat.cast_nonneg _, Nat.cast_nonneg _,
   Nat.cast_nonneg _, Nat.cast_nonneg _, Nat.cast_nonneg _, Nat.cast_nonneg _⟩

/-- After the fallback step the weights are nonnegative with positive sum. -/
lemma fallback_pos (w : Weights) (hw : nonnegW w) :
    nonnegW (applyFallback w) ∧ 0 < wsum (applyFallback w) := by
  obtain ⟨h1, h2, h3, h4, h5, h6, h7, h8⟩ := hw
  by_cases hz : wsum w = 0
  · rw [applyFallback, if_pos hz]
    refine ⟨⟨h1, h2, h3, by norm_num, by norm_num, by norm_num, h7, h8⟩, ?_⟩
    have hs : wsum { w with cyan := 1, green := 7/10, blue := 1/2 } =
        w.red + w.orange + w.yellow + 7/10 + 1 + 1/2 + w.purple + w.pink := rfl
    rw [hs]
    linarith
  · rw [applyFallback, if_neg hz]
    have hs : 0 ≤ wsum w := by
      unfold wsum
      linarith
    exact ⟨⟨h1, h2, h3, h4, h5, h6, h7, h8⟩, lt_of_le_of_ne hs (Ne.symm hz)⟩

/-- Normalizing nonnegative weights with positive sum yields a
distribution. -/
lemma normalize_isDistribution (w : Weights) (hw : nonnegW w)
    (hpos : 0 < wsum w) : isDistribution (normalize w) := by
  obtain ⟨h1, h2, h3, h4, h5, h6, h7, h8⟩ := hw
  have hne : wsum w ≠ 0 := ne_of_gt hpos
  have hw8 : w.red + w.orange + w.yellow + w.green + w.cyan + w.blue +
      w.purple + w.pink = wsum w := rfl
  have hnorm : normalize w =
      ⟨w.red / wsum w, w.orange / wsum w, w.yellow / wsum w, w.green / wsum w,
       w.cyan / wsum w, w.blue / wsum w, w.purple / wsum w, w.pink / wsum w⟩ := by
    unfold normalize
    rw [if_neg hne]
  rw [hnorm]
  have hb : ∀ a : ℚ, 0 ≤ a → a ≤ wsum w → 0 ≤ a / wsum w ∧ a / wsum w ≤ 1 := by
    intro a ha hale
    exact ⟨div_nonneg ha hpos.le, (div_le_one hpos).mpr hale⟩
  obtain ⟨q1, q1'⟩ := hb w.red h1 (by linarith)
  obtain ⟨q2, q2'⟩ := hb w.orange h2 (by linarith)
  obtain ⟨q3, q3'⟩ := hb w.yellow h3 (by linarith)
  obtain ⟨q4, q4'⟩ := hb w.green h4 (by linarith)
  obtain ⟨q5, q5'⟩ := hb w.cyan h5 (by linarith)
  obtain ⟨q6, q6'⟩ := hb w.blue h6 (by linarith)
  obtain ⟨q7, q7'⟩ := hb w.purple h7 (by linarith)
  obtain ⟨q8, q8'⟩ := hb w.pink h8 (by linarith)
  refine ⟨q1, q1', q2, q2', q3, q3', q4, q4', q5, q5', q6, q6', q7, q7', q8, q8', ?_⟩
  show w.red / wsum w + w.orange / wsum w + w.yellow / wsum w + w.green / wsum w +
      w.cyan / wsum w + w.blue / wsum w + w.purple / wsum w + w.pink / wsum w = 1
  rw [div_add_div_same, div_add_div_same, div_add_div_same, div_add_div_same,
    div_add_div_same, div_add_div_same, div_add_div_same, hw8, div_self hne]

/-- A cache entry survives one get_genres step for any artist id. -/
lemma cacheAfter_preserves (pb : Playback) (c : Cache) (a aid : String)
    (v : List String) (h : List.lookup aid c = some v) :
    List.lookup aid (cacheAfter pb c a) = some v := by
  unfold cacheAfter get_genres
  cases hl : List.lookup a c with
  | some w => simpa using h
  | none =>
    cases hg : pb.artistGenres a with
    | error e => simpa using h
    | ok g =>
      have hne : aid ≠ a := by
        intro he
        rw [he, hl] at h
        cases h
      simp [List.lookup, beq_eq_false_iff_ne.mpr hne, h]

/-- A cache entry survives any sequence of get_genres steps. -/
lemma runCalls_preserves (pb : Playback) (aids : List String) :
    ∀ c aid v, List.lookup aid c = some v →
      List.lookup aid (runCalls pb c aids) = some v := by
  induction aids with
  | nil => intro c aid v h; simpa [runCalls] using h
  | cons a rest ih =>
    intro c aid v h
    exact ih _ _ _ (cacheAfter_preserves pb c a aid v h)

/-! The claims. -/

/-- C1 (counterexample): a Playback Provider failure that raises (network
or auth error, or a non-success upstream status surfaced by the client as
an exception) is NOT recovered by the Context Resolver: update_context
propagates it as an error instead of answering with the default context,
contradicting the claim that no provider failure reaches the HTTP caller. -/
theorem c1_counterexample :
    update_context pbRaise [] none modeTEMP = Except.error PyErr.providerError := rfl

/-- C1 (amended): only the nothing-is-playing outcome is recovered: when
the provider call succeeds and reports no current item, update_context
returns the default context (song "No Song", artist "Unknown", no genres,
popularity 50, explicit false) together with the color computed from those
defaults, for every cache, temperature and mode; a raising provider call,
however, propagates to the HTTP caller as an error. -/
theorem c1_default_context (pb : Playback) (cache : Cache) (temp : Option ℚ)
    (mode : String) (h : pb.current = Except.ok none) :
    update_context pb cache temp mode =
      Except.ok (⟨"No Song", "Unknown", 67, 156, 135, [], 50, false⟩, cache) := by
  have hcolor : bucket_base_rgb (score_buckets []) temp (some 50) false
      = (67, 156, 135) := (bucket_temp_irrel _ temp none _ _).trans (by decide)
  unfold update_context safe_get_current_genres
  rw [h]
  simp only []
  rw [hcolor]
  simp [show ("No Song").take 15 = "No Song" from by decide,
    show ("Unknown").take 15 = "Unknown" from by decide]

/-- C1 (witness): the amended theorem applied to a concrete provider that
reports nothing playing. -/
theorem c1_witness :
    pbNothing.current = Except.ok none ∧
    update_context pbNothing [] none modeTEMP =
      Except.ok (⟨"No Song", "Unknown", 67, 156, 135, [], 50, false⟩, []) :=
  ⟨rfl, c1_default_context pbNothing [] none modeTEMP rfl⟩

/-- C2 (counterexample): a request with mode=BPM on a playing rock track
is answered with the genre-path color (209,33,33), and that triple is not
producible by the tempo path at all (tempo-path red and blue channels
always sum to 254 or 255, but 209+33=242), so the RGB triple of a BPM
request is not produced by bpm_to_rgb. -/
theorem c2_counterexample :
    update_context pbRock [] none modeBPM =
      Except.ok (⟨"Song", "Artist", 209, 33, 33, ["classic rock", "metal"],
        80, false⟩, [("a1", ["classic rock", "metal"])]) ∧
    ¬ bpmAttainable (209, 33, 33) := by
  constructor
  · decide
  · rintro ⟨t, e, hte⟩
    have h := bpm_red_blue_sum t e
    rw [hte] at h
    norm_num at h

/-- C2 (amended): the mode query parameter is parsed but never consulted:
every request is answered exactly as a TEMP-mode request, through the
genre classifier / color synthesizer path, and the tempo path is never
invoked. -/
theorem c2_mode_ignored (pb : Playback) (cache : Cache) (temp : Option ℚ)
    (mode : String) :
    update_context pb cache temp mode = update_context pb cache temp modeTEMP := rfl

/-- C3 (counterexample): for the present, valid input popularity=0 with
explicit=false the synthesizer produces saturation 0.75 and brightness 0.7
(Python's popularity-or-50 treats 0 as absent), not the claimed 0.6 and
0.5. -/
theorem c3_counterexample :
    synthSat (some 0) false = 3/4 ∧ synthBright (some 0) = 7/10 ∧
    ¬(synthSat (some 0) false = 3/5 ∧ synthBright (some 0) = 1/2) := by decide

/-- C3 (amended): 50 is substituted when popularity is absent OR zero
(any falsy value); for nonzero present popularity p the saturation is
clamp01(0.6 + 0.3*clamp01(p/100) + (0.1 if explicit)) and the brightness
clamp01(0.5 + 0.4*clamp01(p/100)); consequently popularity=0 with
explicit=false yields saturation 0.75 and brightness 0.7, the same as an
absent popularity. -/
theorem c3_popularity (p : ℤ) (hp : p ≠ 0) :
    (synthSat none false = 3/4 ∧ synthBright none = 7/10) ∧
    (synthSat (some 0) false = 3/4 ∧ synthBright (some 0) = 7/10) ∧
    synthSat (some p) false = clamp01 (3/5 + 3/10 * clamp01 ((p : ℚ) / 100)) ∧
    synthSat (some p) true = clamp01 (3/5 + 3/10 * clamp01 ((p : ℚ) / 100) + 1/10) ∧
    synthBright (some p) = clamp01 (1/2 + 2/5 * clamp01 ((p : ℚ) / 100)) := by
  refine ⟨by decide, by decide, ?_, ?_, ?_⟩ <;>
    simp [synthSat, synthBright, popNorm, pyOrFifty, hp]

/-- C3 (witness): the amended theorem applied at popularity 80. -/
theorem c3_witness :
    (80 : ℤ) ≠ 0 ∧
    synthSat (some 80) false = clamp01 (3/5 + 3/10 * clamp01 ((80 : ℚ) / 100)) :=
  ⟨by decide, (c3_popularity 80 (by decide)).2.2.1⟩

/-- C4 (confirmed): for every genre list, score_buckets returns a
distribution: all eight weights lie in [0,1] and they sum to exactly 1
(the floating tolerance of the claim is exact equality in the rational
model); no input fails or escapes normalization. -/
theorem c4_always_distribution (genres : List String) :
    isDistribution (score_buckets genres) := by
  have h := fallback_pos _ (pre_nonneg genres)
  exact normalize_isDistribution _ h.1 h.2

/-- C5 (confirmed): whenever no keyword matches (the raw keyword weights
sum to zero), score_buckets returns exactly the normalized fallback:
CYAN = 1/2.2 = 5/11, GREEN = 0.7/2.2 = 7/22, BLUE = 0.5/2.2 = 5/22, and
zero for the other five buckets. -/
theorem c5_fallback (genres : List String)
    (h : wsum (preWeights genres) = 0) :
    score_buckets genres = ⟨0, 0, 0, 7/22, 5/11, 5/22, 0, 0⟩ := by
  obtain ⟨h1, h2, h3, h4, h5, h6, h7, h8⟩ := pre_nonneg genres
  have hsum : (preWeights genres).red + (preWeights genres).orange +
      (preWeights genres).yellow + (preWeights genres).green +
      (preWeights genres).cyan + (preWeights genres).blue +
      (preWeights genres).purple + (preWeights genres).pink = 0 := h
  have hz : preWeights genres = ⟨0, 0, 0, 0, 0, 0, 0, 0⟩ := by
    refine Weights.ext ?_ ?_ ?_ ?_ ?_ ?_ ?_ ?_ <;> show _ = (0 : ℚ) <;> linarith
  unfold score_buckets
  rw [hz]
  decide

/-- C5 (witness): the empty genre list matches no keyword, and indeed
classifies to the normalized fallback distribution. -/
theorem c5_witness :
    wsum (preWeights []) = 0 ∧
    score_buckets [] = ⟨0, 0, 0, 7/22, 5/11, 5/22, 0, 0⟩ :=
  ⟨by decide, c5_fallback [] (by decide)⟩

/-- C6 (confirmed): genres ["classic rock", "metal"] classify to weight
1.0 on RED (rock and metal each hit RED, nothing else matches), and
synthesizing that distribution at popularity 80, explicit false gives
saturation 0.84, brightness 0.82 and the RGB triple (209,33,33) under the
truncating HSV conversion. -/
theorem c6_scenario_rock :
    score_buckets ["classic rock", "metal"] = ⟨1, 0, 0, 0, 0, 0, 0, 0⟩ ∧
    synthSat (some 80) false = 21/25 ∧
    synthBright (some 80) = 41/50 ∧
    bucket_base_rgb (score_buckets ["classic rock", "metal"]) none (some 80)
      false = (209, 33, 33) := by decide

/-- C7 (confirmed): bpm_to_rgb clamps tempo into [60,180], maps it to
p=(tempo-60)/120 and returns the truncated, bounded channels; at
tempo=150, energy=0.9 this is (191,229,63), and every output channel lies
in [0,255] for all inputs. -/
theorem c7_tempo_colorizer :
    bpm_to_rgb 150 (9/10) = (191, 229, 63) ∧
    ∀ tempo energy : ℚ, inRGB (bpm_to_rgb tempo energy) := by
  refine ⟨by decide, fun tempo energy => ?_⟩
  exact ⟨clamp_nonneg _, clamp_le_255 _, clamp_nonneg _, clamp_le_255 _,
    clamp_nonneg _, clamp_le_255 _⟩

/-- C8 (confirmed): a first miss for an artist id stores the provider's
genre list in the cache; from then on every get_genres call for that id
returns the stored list with zero provider calls and an unchanged cache,
and the entry survives (unmutated, unevicted) any sequence of further
get_genres calls for arbitrary artist ids. -/
theorem c8_cache (pb : Playback) (cache : Cache) (aid : String)
    (v g : List String) (aids : List String) :
    (List.lookup aid cache = none → pb.artistGenres aid = Except.ok g →
      get_genres pb cache aid = Except.ok (g, (aid, g) :: cache, 1) ∧
      List.lookup aid ((aid, g) :: cache) = some g) ∧
    (List.lookup aid cache = some v →
      List.lookup aid (runCalls pb cache aids) = some v ∧
      get_genres pb (runCalls pb cache aids) aid =
        Except.ok (v, runCalls pb cache aids, 0)) := by
  constructor
  · intro h1 h2
    constructor
    · unfold get_genres
      rw [h1, h2]
    · simp [List.lookup]
  · intro h
    have hpres := runCalls_preserves pb aids cache aid v h
    refine ⟨hpres, ?_⟩
    unfold get_genres
    rw [hpres]

/-- C8 (witness): the cache theorem applied to artist "A1" with a concrete
provider: the first miss stores, and after two further calls (a hit on A1
and a miss on A2) the entry still answers with zero provider calls. -/
theorem c8_witness :
    get_genres pbRock [] aid1 =
      Except.ok (["classic rock", "metal"], [(aid1, ["classic rock", "metal"])], 1) ∧
    List.lookup aid1 (runCalls pbRock [(aid1, ["classic rock", "metal"])] [aid1, aid2]) =
      some ["classic rock", "metal"] ∧
    get_genres pbRock (runCalls pbRock [(aid1, ["classic rock", "metal"])] [aid1, aid2]) aid1 =
      Except.ok (["classic rock", "metal"],
        runCalls pbRock [(aid1, ["classic rock", "metal"])] [aid1, aid2], 0) :=
  ⟨((c8_cache pbRock [] aid1 [] ["classic rock", "metal"] [aid1, aid2]).1 rfl rfl).1,
   ((c8_cache pbRock [(aid1, ["classic rock", "metal"])] aid1
      ["classic rock", "metal"] [] [aid1, aid2]).2 (by decide)).1,
   ((c8_cache pbRock [(aid1, ["classic rock", "metal"])] aid1
      ["classic rock", "metal"] [] [aid1, aid2]).2 (by decide)).2⟩

/-- C9 (confirmed): mixing is total: the denominator of mix_rgb is never
zero (an exactly-zero weight sum falls back to 1.0), every output channel
is an integer in [0,255], and the empty list mixes to (0,0,0). -/
theorem c9_mix_total :
    (∀ colors, mixTotal colors ≠ 0) ∧
    (∀ colors, inRGB (mix_rgb colors)) ∧
    mix_rgb [] = (0, 0, 0) := by
  refine ⟨fun colors => ?_, fun colors =>
    ⟨clamp_nonneg _, clamp_le_255 _, clamp_nonneg _, clamp_le_255 _,
     clamp_nonneg _, clamp_le_255 _⟩, by decide⟩
  by_cases h : ((colors.map fun cw => cw.2).sum : ℚ) = 0
  · simp only [mixTotal]
    rw [if_pos h]
    norm_num
  · simp only [mixTotal]
    rw [if_neg h]
    exact h

/-- C10 (confirmed): score_buckets depends only on the lowercased
space-joined text of its input, so two genre lists with the same joined
text classify identically; in particular a keyword may match across a
genre-string boundary: ["hip", "hop"] joins to "hip hop" and gives the
PURPLE bucket positive weight. -/
theorem c10_text_only (g1 g2 : List String) (h : joinedText g1 = joinedText g2) :
    score_buckets g1 = score_buckets g2 ∧
    0 < (score_buckets ["hip", "hop"]).purple := by
  constructor
  · unfold score_buckets preWeights
    rw [h]
  · decide

/-- C10 (witness): the lists ["hip", "hop"] and ["hip hop"] join to the
same text and classify identically. -/
theorem c10_witness :
    joinedText ["hip", "hop"] = joinedText ["hip hop"] ∧
    score_buckets ["hip", "hop"] = score_buckets ["hip hop"] :=
  ⟨by decide, (c10_text_only ["hip", "hop"] ["hip hop"] (by decide)).1⟩

end SpotifyIoT
